import Mathlib

/-!
Verification of the prompt-to-landing generator backend (`src/main.py`).

Strings are modelled as `List Char`; the Python string primitives used by the
code (`strip`, `lower`, `title`, `split(" ")`, substring `in`, slicing) are
embedded as executable Lean functions over `List Char` (ASCII semantics, which
covers every keyword and literal the program manipulates).
-/

set_option maxRecDepth 20000

namespace Backend

/-- Python whitespace test for the ASCII characters `str.strip` removes. -/
def pyWs (c : Char) : Bool :=
  c == ' ' || c == '\t' || c == '\n' || c == '\r' || c == '\x0b' || c == '\x0c'

/-- Python `str.strip()`: drop whitespace from the front, then from the back. -/
def pyStrip (l : List Char) : List Char :=
  List.rdropWhile pyWs (List.dropWhile pyWs l)

/-- Python `str.lower()` restricted to ASCII letters (the only cased characters
occurring in the program's keyword tables and test inputs). -/
def pyToLower : Char → Char
  | 'A' => 'a' | 'B' => 'b' | 'C' => 'c' | 'D' => 'd' | 'E' => 'e' | 'F' => 'f'
  | 'G' => 'g' | 'H' => 'h' | 'I' => 'i' | 'J' => 'j' | 'K' => 'k' | 'L' => 'l'
  | 'M' => 'm' | 'N' => 'n' | 'O' => 'o' | 'P' => 'p' | 'Q' => 'q' | 'R' => 'r'
  | 'S' => 's' | 'T' => 't' | 'U' => 'u' | 'V' => 'v' | 'W' => 'w' | 'X' => 'x'
  | 'Y' => 'y' | 'Z' => 'z'
  | c => c

/-- Python `str.upper()` restricted to ASCII letters. -/
def pyToUpper : Char → Char
  | 'a' => 'A' | 'b' => 'B' | 'c' => 'C' | 'd' => 'D' | 'e' => 'E' | 'f' => 'F'
  | 'g' => 'G' | 'h' => 'H' | 'i' => 'I' | 'j' => 'J' | 'k' => 'K' | 'l' => 'L'
  | 'm' => 'M' | 'n' => 'N' | 'o' => 'O' | 'p' => 'P' | 'q' => 'Q' | 'r' => 'R'
  | 's' => 'S' | 't' => 'T' | 'u' => 'U' | 'v' => 'V' | 'w' => 'W' | 'x' => 'X'
  | 'y' => 'Y' | 'z' => 'Z'
  | c => c

/-- Cased character test (ASCII letters), the word-boundary notion of
Python `str.title()`. -/
def pyCased (c : Char) : Bool :=
  ('a' ≤ c && c ≤ 'z') || ('A' ≤ c && c ≤ 'Z')

/-- Worker for `pyTitle`: the flag records whether the previous character was
cased. Python `str.title()` uppercases a cased character after an uncased one
and lowercases a cased character after a cased one. -/
def pyTitleGo : Bool → List Char → List Char
  | _, [] => []
  | prev, c :: cs =>
    if pyCased c then
      (if prev then pyToLower c else pyToUpper c) :: pyTitleGo true cs
    else
      c :: pyTitleGo false cs

/-- Python `str.title()`. -/
def pyTitle (l : List Char) : List Char :=
  pyTitleGo false l

/-- `startsWith needle hay` holds when `needle` is an initial segment of `hay`. -/
def startsWith : List Char → List Char → Bool
  | [], _ => true
  | _ :: _, [] => false
  | a :: as, b :: bs => a == b && startsWith as bs

/-- Python substring membership `needle in hay`. -/
def containsSub (hay needle : List Char) : Bool :=
  match hay with
  | [] => startsWith needle []
  | _ :: t => startsWith needle hay || containsSub t needle

/-- Python `any(k in lower for k in ks)`. -/
def containsAny (lower : List Char) (ks : List (List Char)) : Bool :=
  ks.any (fun k => containsSub lower k)

/-- Python `s.split(" ")`: every single space is a separator and empty pieces
are kept (`"".split(" ") == [""]`). -/
def splitOnSpace : List Char → List (List Char)
  | [] => [[]]
  | c :: cs =>
    if c == ' ' then [] :: splitOnSpace cs
    else
      match splitOnSpace cs with
      | [] => [[c]]
      | t :: ts => (c :: t) :: ts

/-- Order-preserving de-duplication, as `dict.fromkeys` does for the subtitle
tags: keep the first occurrence of each element. -/
def dedupGo (seen : List (List Char)) : List (List Char) → List (List Char)
  | [] => []
  | x :: xs => if x ∈ seen then dedupGo seen xs else x :: dedupGo (x :: seen) xs

/-- `list(dict.fromkeys(l))`. -/
def dedupKeepFirst (l : List (List Char)) : List (List Char) :=
  dedupGo [] l

/-- Keyword set of the first theme check (`main.py` line 46). -/
def fintechKws : List (List Char) :=
  ["bank".toList, "fintech".toList, "saas".toList, "analytics".toList,
   "ai".toList, "ml".toList]

/-- Keyword set of the second theme check (`main.py` line 48). -/
def sunsetKws : List (List Char) :=
  ["sunset".toList, "creative".toList, "design".toList, "marketing".toList,
   "brand".toList, "portfolio".toList]

/-- Keyword set of the third theme check (`main.py` line 50). -/
def mintKws : List (List Char) :=
  ["health".toList, "calm".toList, "wellness".toList, "eco".toList,
   "green".toList, "garden".toList]

/-- Keyword set of the ai/ml feature check (`main.py` line 67). -/
def aiKws : List (List Char) :=
  ["ai".toList, "ml".toList, "gpt".toList, "chat".toList]

/-- Keyword set of the analytics feature check (`main.py` line 70). -/
def analyticsKws : List (List Char) :=
  ["analytics".toList, "insight".toList, "metric".toList, "dashboard".toList]

/-- Keyword set of the team feature check (`main.py` line 73). -/
def teamKws : List (List Char) :=
  ["team".toList, "collab".toList, "share".toList]

/-- Keyword set of the mobile feature check (`main.py` line 76). -/
def mobileKws : List (List Char) :=
  ["mobile".toList, "ios".toList, "android".toList, "responsive".toList]

/-- Keyword set of the security feature check (`main.py` line 78). -/
def secureKws : List (List Char) :=
  ["secure".toList, "privacy".toList, "gdpr".toList, "auth".toList]

/-- Keyword set of the integrations feature check (`main.py` line 80). -/
def apiKws : List (List Char) :=
  ["api".toList, "integrations".toList, "zapier".toList, "slack".toList,
   "notion".toList]

/-- Feature bullet of the ai/ml check. -/
def aiFeat : List Char := "AI-assisted workflows that learn from your usage".toList

/-- Feature bullet of the analytics check. -/
def analyticsFeat : List Char :=
  "Real-time analytics dashboards with actionable insights".toList

/-- Feature bullet of the team check. -/
def teamFeat : List Char :=
  "Team collaboration with comments and shared libraries".toList

/-- Feature bullet of the mobile check. -/
def mobileFeat : List Char :=
  "Responsive by default — perfect on mobile and desktop".toList

/-- Feature bullet of the security check. -/
def secureFeat : List Char :=
  "Enterprise-grade security and role-based access".toList

/-- Feature bullet of the integrations check. -/
def apiFeat : List Char := "One-click integrations with your favorite tools".toList

/-- The fallback feature list used when no keyword check fired
(`main.py` lines 82-87). -/
def defaultFeats : List (List Char) :=
  ["Clean, modern UI built for conversion".toList,
   "Lightning-fast performance and SEO".toList,
   "Effortless setup — launch in minutes".toList]

/-- `add_feat` (`main.py` lines 63-65): append unless empty or already present. -/
def addFeat (bank : List (List Char)) (text : List Char) : List (List Char) :=
  if !text.isEmpty && !bank.contains text then bank ++ [text] else bank

/-- Theme selection (`main.py` lines 42-51): three sequential, unconditional
overwrites of the theme variable, starting from the default `fintech`. -/
def themeOf (lower : List Char) : List Char :=
  let t0 := "fintech".toList
  let t1 := if containsAny lower fintechKws then "fintech".toList else t0
  let t2 := if containsAny lower sunsetKws then "sunset".toList else t1
  if containsAny lower mintKws then "mint".toList else t2

/-- Newline normalization used before tokenizing (`prompt.replace("\n", " ")`). -/
def nlToSpace (c : Char) : Char :=
  if c == '\n' then ' ' else c

/-- Token list of `main.py` line 54: replace newlines by spaces, split on
single spaces, drop empty pieces. -/
def tokensOf (prompt : List Char) : List (List Char) :=
  (splitOnSpace (prompt.map nlToSpace)).filter (fun t => !t.isEmpty)

/-- Name extraction (`main.py` lines 40 and 54-59): default `"Your Product"`;
when tokens exist, join the first three with a space, strip, and if the
candidate is non-empty use its title-cased form. -/
def nameOf (prompt : List Char) : List Char :=
  let tokens := tokensOf prompt
  if tokens.isEmpty then "Your Product".toList
  else
    let cand := pyStrip (List.intercalate [' '] (tokens.take 3))
    if cand.isEmpty then "Your Product".toList else pyTitle cand

/-- The feature-bank accumulation of `main.py` lines 62-81, as a function of
the six keyword-match outcomes, in source order. -/
def bankChain (m1 m2 m3 m4 m5 m6 : Bool) : List (List Char) :=
  let b0 : List (List Char) := []
  let b1 := if m1 then addFeat b0 aiFeat else b0
  let b2 := if m2 then addFeat b1 analyticsFeat else b1
  let b3 := if m3 then addFeat b2 teamFeat else b2
  let b4 := if m4 then addFeat b3 mobileFeat else b3
  let b5 := if m5 then addFeat b4 secureFeat else b4
  if m6 then addFeat b5 apiFeat else b5

/-- Feature list (`main.py` lines 62-87): accumulate per keyword check, then
fall back to the default list when nothing fired. -/
def featureBank (lower : List Char) : List (List Char) :=
  let b := bankChain (containsAny lower aiKws) (containsAny lower analyticsKws)
    (containsAny lower teamKws) (containsAny lower mobileKws)
    (containsAny lower secureKws) (containsAny lower apiKws)
  if b.isEmpty then defaultFeats else b

/-- Subtitle tag accumulation (`main.py` lines 69, 72, 75): the three appends
to `subtitle_bits`, in source order, each guarded by its keyword check. -/
def subtitleBits (lower : List Char) : List (List Char) :=
  (if containsAny lower aiKws then ["AI-powered".toList] else []) ++
  (if containsAny lower analyticsKws then ["analytics".toList] else []) ++
  (if containsAny lower teamKws then ["collaboration".toList] else [])

/-- Subtitle construction (`main.py` line 89): join the de-duplicated tags and
append the fixed tail, or use the fixed fallback sentence. -/
def subtitleOf (lower : List Char) : List Char :=
  let bits := subtitleBits lower
  if bits.isEmpty then "A minimal landing that explains your value clearly.".toList
  else List.intercalate ", ".toList (dedupKeepFirst bits) ++
    " platform to help you move faster".toList

/-- Hero block of the generated page (`main.py` lines 92-96). -/
structure Hero where
  title : List Char
  subtitle : List Char
  cta : List Char
deriving DecidableEq, Repr

/-- Features block (`main.py` lines 97-99). -/
structure FeaturesBlock where
  items : List (List Char)
deriving DecidableEq, Repr

/-- Call-to-action block (`main.py` lines 100-103). -/
structure CtaBlock where
  title : List Char
  button : List Char
deriving DecidableEq, Repr

/-- The `data` dictionary of the response (`main.py` lines 91-104). -/
structure PageData where
  hero : Hero
  features : FeaturesBlock
  cta : CtaBlock
deriving DecidableEq, Repr

/-- Full `/api/generate` response (`main.py` line 106). -/
structure GenResult where
  data : PageData
  themeId : List Char
deriving DecidableEq, Repr

/-- Body of `generate` after the initial `strip` (`main.py` lines 40-106). -/
def generateStripped (prompt : List Char) : GenResult :=
  let lower := prompt.map pyToLower
  { data :=
      { hero :=
          { title := nameOf prompt ++ ": launch faster with clarity".toList
            subtitle := subtitleOf lower
            cta := "Get Started".toList }
        features := { items := featureBank lower }
        cta :=
          { title := "Ready to launch your landing?".toList
            button := "Generate Page".toList } }
    themeId := themeOf lower }

/-- The `/api/generate` handler (`main.py` lines 32-106): strip the raw prompt,
then run the heuristic generator. -/
def generate (promptRaw : List Char) : GenResult :=
  generateStripped (pyStrip promptRaw)

/-- The lowered stripped prompt, the `lower` variable of `main.py` line 44. -/
def promptLower (promptRaw : List Char) : List Char :=
  (pyStrip promptRaw).map pyToLower

/-- Response shape of the `/test` endpoint (`main.py` lines 111-118); the url
and name fields start as JSON nulls, hence `Option`. -/
structure TestResponse where
  backend : List Char
  database : List Char
  database_url : Option (List Char)
  database_name : Option (List Char)
  connection_status : List Char
  collections : List (List Char)
deriving DecidableEq, Repr

/-- Outcome of probing the optional `database` collaborator in `test_database`:
the import fails, the module-level `db` is `None`, a connection object exists
(with or without a `name` attribute, and listing collections either returns a
list or raises with some message), or any other exception escapes the probe. -/
inductive DbProbe where
  | importError : DbProbe
  | notInitialized : DbProbe
  | connected (hasName : Bool) (dbName : List Char)
      (listResult : Except (List Char) (List (List Char))) : DbProbe
  | otherError (msg : List Char) : DbProbe
deriving Repr

/-- The `/test` handler (`main.py` lines 108-150), as a total function of the
probe outcome and of whether the two environment variables are set. -/
def test_database (probe : DbProbe) (urlSet nameSet : Bool) : TestResponse :=
  let r0 : TestResponse :=
    { backend := "✅ Running".toList
      database := "❌ Not Available".toList
      database_url := none
      database_name := none
      connection_status := "Not Connected".toList
      collections := [] }
  let r1 :=
    match probe with
    | .importError =>
      { r0 with
        database := "❌ Database module not found (run enable-database first)".toList }
    | .notInitialized =>
      { r0 with database := "⚠️  Available but not initialized".toList }
    | .connected hasName dbName listResult =>
      let r :=
        { r0 with
          database := "✅ Available".toList
          database_url := some "✅ Configured".toList
          database_name := some (if hasName then dbName else "✅ Connected".toList)
          connection_status := "Connected".toList }
      match listResult with
      | .ok cols =>
        { r with
          collections := cols.take 10
          database := "✅ Connected & Working".toList }
      | .error e =>
        { r with database := "⚠️  Connected but Error: ".toList ++ e.take 50 }
    | .otherError e => { r0 with database := "❌ Error: ".toList ++ e.take 50 }
  { r1 with
    database_url := some (if urlSet then "✅ Set".toList else "❌ Not Set".toList)
    database_name := some (if nameSet then "✅ Set".toList else "❌ Not Set".toList) }

/-- Name computation in the words of claim C4: replace newlines with spaces in
the trimmed prompt, split on single spaces, drop empty tokens, join the first
3 tokens with a single space and title-case the result (with no re-strip of
the joined candidate); empty or whitespace-only prompt gives `"Your Product"`. -/
def specC4Name (promptRaw : List Char) : List Char :=
  let tokens := tokensOf (pyStrip promptRaw)
  if tokens.isEmpty then "Your Product".toList
  else pyTitle (List.intercalate [' '] (tokens.take 3))

/-- Name computation in the words of the amended claim C4: as `specC4Name`,
but the joined candidate is stripped of surrounding whitespace before
title-casing, and if the stripped candidate is empty the name stays
`"Your Product"`. -/
def specC4NameAmended (promptRaw : List Char) : List Char :=
  let tokens := tokensOf (pyStrip promptRaw)
  if tokens.isEmpty then "Your Product".toList
  else
    let cand := pyStrip (List.intercalate [' '] (tokens.take 3))
    if cand.isEmpty then "Your Product".toList else pyTitle cand

/-- The feature list selected by the six keyword-match outcomes, in source
order: the shape the spec describes for a matching prompt. -/
def featureSel (m1 m2 m3 m4 m5 m6 : Bool) : List (List Char) :=
  (if m1 then [aiFeat] else []) ++ (if m2 then [analyticsFeat] else []) ++
  (if m3 then [teamFeat] else []) ++ (if m4 then [mobileFeat] else []) ++
  (if m5 then [secureFeat] else []) ++ (if m6 then [apiFeat] else [])


lemma dropWhile_rdropWhile_dropWhile (p : Char → Bool) (l : List Char) :
    List.dropWhile p (List.rdropWhile p (List.dropWhile p l)) =
      List.rdropWhile p (List.dropWhile p l) := by
  cases hm : List.rdropWhile p (List.dropWhile p l) with
  | nil => rfl
  | cons c cs =>
    obtain ⟨t, ht⟩ :=
      List.dropWhile_suffix (l := (List.dropWhile p l).reverse) p
    have ht2 : List.rdropWhile p (List.dropWhile p l) ++ t.reverse =
        List.dropWhile p l := by
      have h2 := congrArg List.reverse ht
      simpa [List.rdropWhile, List.reverse_append] using h2
    rw [hm] at ht2
    have hc : p c = false := by
      have h2 := List.head?_dropWhile_not p l
      rw [← ht2] at h2
      simpa using h2
    simp [List.dropWhile_cons, hc]

lemma pyStrip_idem (l : List Char) : pyStrip (pyStrip l) = pyStrip l := by
  unfold pyStrip
  rw [dropWhile_rdropWhile_dropWhile, List.rdropWhile_idempotent]

lemma pyWs_pyToLower (c : Char) : pyWs (pyToLower c) = pyWs c := by
  unfold pyToLower
  split <;> rfl

lemma map_pyToLower_rdropWhile (l : List Char) :
    (List.rdropWhile pyWs l).map pyToLower =
      List.rdropWhile pyWs (l.map pyToLower) := by
  have hws : (pyWs ∘ pyToLower) = pyWs := funext pyWs_pyToLower
  unfold List.rdropWhile
  rw [← List.map_reverse, List.dropWhile_map, hws, List.map_reverse]

lemma map_pyToLower_pyStrip (l : List Char) :
    (pyStrip l).map pyToLower = pyStrip (l.map pyToLower) := by
  have hws : (pyWs ∘ pyToLower) = pyWs := funext pyWs_pyToLower
  unfold pyStrip
  rw [List.dropWhile_map, hws, map_pyToLower_rdropWhile]

lemma promptLower_eq (p : List Char) :
    promptLower p = pyStrip (p.map pyToLower) := by
  unfold promptLower
  exact map_pyToLower_pyStrip p

lemma generate_themeId (p : List Char) :
    (generate p).themeId = themeOf (promptLower p) := rfl

lemma generate_items (p : List Char) :
    (generate p).data.features.items = featureBank (promptLower p) := rfl

lemma generate_subtitle (p : List Char) :
    (generate p).data.hero.subtitle = subtitleOf (promptLower p) := rfl

lemma generate_title (p : List Char) :
    (generate p).data.hero.title =
      nameOf (pyStrip p) ++ ": launch faster with clarity".toList := rfl

lemma bankChain_eq_sel (m1 m2 m3 m4 m5 m6 : Bool) :
    bankChain m1 m2 m3 m4 m5 m6 = featureSel m1 m2 m3 m4 m5 m6 := by
  cases m1 <;> cases m2 <;> cases m3 <;> cases m4 <;> cases m5 <;> cases m6 <;>
    rfl

lemma featureSel_length_le (m1 m2 m3 m4 m5 m6 : Bool) :
    (featureSel m1 m2 m3 m4 m5 m6).length ≤ 6 := by
  cases m1 <;> cases m2 <;> cases m3 <;> cases m4 <;> cases m5 <;> cases m6 <;>
    decide

lemma featureBank_eq_sel (lower : List Char) :
    featureBank lower =
      (if (featureSel (containsAny lower aiKws) (containsAny lower analyticsKws)
            (containsAny lower teamKws) (containsAny lower mobileKws)
            (containsAny lower secureKws) (containsAny lower apiKws)).isEmpty
       then defaultFeats
       else featureSel (containsAny lower aiKws) (containsAny lower analyticsKws)
            (containsAny lower teamKws) (containsAny lower mobileKws)
            (containsAny lower secureKws) (containsAny lower apiKws)) := by
  unfold featureBank
  rw [bankChain_eq_sel]

lemma featureBank_ne_nil (lower : List Char) : featureBank lower ≠ [] := by
  rw [featureBank_eq_sel]
  cases h1 : containsAny lower aiKws <;>
    cases h2 : containsAny lower analyticsKws <;>
    cases h3 : containsAny lower teamKws <;>
    cases h4 : containsAny lower mobileKws <;>
    cases h5 : containsAny lower secureKws <;>
    cases h6 : containsAny lower apiKws <;> decide

/-- C1 counterexample: the prompt "team" contains a team keyword, and contrary
to the claim the tag "collaboration" IS appended to the subtitle-tag list, so
"collaboration" occurs in hero.subtitle of the result. -/
theorem C1_counterexample :
    containsAny (promptLower "team".toList) teamKws = true ∧
    "collaboration".toList ∈ subtitleBits (promptLower "team".toList) ∧
    containsSub ((generate "team".toList).data.hero.subtitle)
      "collaboration".toList = true := by
  decide

/-- C1 (amended): for every prompt whose lowercased form contains one of the
substrings "team", "collab", "share", the generator appends the feature
"Team collaboration with comments and shared libraries" AND appends the tag
"collaboration" to the subtitle-tag list, so the string "collaboration"
occurs in hero.subtitle of the result. -/
theorem C1_team_branch (p : List Char)
    (h : containsAny (promptLower p) teamKws = true) :
    teamFeat ∈ (generate p).data.features.items ∧
    "collaboration".toList ∈ subtitleBits (promptLower p) ∧
    containsSub ((generate p).data.hero.subtitle)
      "collaboration".toList = true := by
  rw [generate_items, generate_subtitle]
  refine ⟨?_, ?_, ?_⟩
  · rw [featureBank_eq_sel]
    cases h1 : containsAny (promptLower p) aiKws <;>
      cases h2 : containsAny (promptLower p) analyticsKws <;>
      cases h4 : containsAny (promptLower p) mobileKws <;>
      cases h5 : containsAny (promptLower p) secureKws <;>
      cases h6 : containsAny (promptLower p) apiKws <;>
      simp only [h] <;> decide
  · simp [subtitleBits, h]
  · unfold subtitleOf subtitleBits
    cases h1 : containsAny (promptLower p) aiKws <;>
      cases h2 : containsAny (promptLower p) analyticsKws <;>
      simp only [h] <;> decide

/-- C1 witness: the amended claim instantiated at the prompt "team". -/
theorem C1_team_branch_witness :
    containsAny (promptLower "team".toList) teamKws = true ∧
    (teamFeat ∈ (generate "team".toList).data.features.items ∧
     "collaboration".toList ∈ subtitleBits (promptLower "team".toList) ∧
     containsSub ((generate "team".toList).data.hero.subtitle)
       "collaboration".toList = true) :=
  ⟨by decide, C1_team_branch _ (by decide)⟩

/-- C2: theme selection is last-write-wins over the three sequential
unconditional checks: the returned themeId is "mint" when a mint keyword
occurs in the lowered prompt, otherwise "sunset" when a sunset keyword occurs,
otherwise "fintech" (whether or not a fintech keyword matches); in particular
"AI bank for wellness" yields "mint". -/
theorem C2_theme_precedence (p : List Char) :
    (generate p).themeId =
      (if containsAny (promptLower p) mintKws then "mint".toList
       else if containsAny (promptLower p) sunsetKws then "sunset".toList
       else "fintech".toList) ∧
    (generate "AI bank for wellness".toList).themeId = "mint".toList := by
  refine ⟨?_, by decide⟩
  rw [generate_themeId]
  unfold themeOf
  cases hm : containsAny (promptLower p) mintKws <;>
    cases hs : containsAny (promptLower p) sunsetKws <;>
    cases hf : containsAny (promptLower p) fintechKws <;>
    simp

/-- C3: the generator is total: for every input string, the returned themeId
is one of "fintech", "sunset", "mint", and the feature list is non-empty. -/
theorem C3_total (p : List Char) :
    (generate p).themeId ∈
      ["fintech".toList, "sunset".toList, "mint".toList] ∧
    (generate p).data.features.items ≠ [] := by
  refine ⟨?_, ?_⟩
  · rw [generate_themeId]
    unfold themeOf
    cases hm : containsAny (promptLower p) mintKws <;>
      cases hs : containsAny (promptLower p) sunsetKws <;>
      cases hf : containsAny (promptLower p) fintechKws <;>
      simp
  · rw [generate_items]
    exact featureBank_ne_nil _

/-- C4 counterexample: on the prompt "a b \t c" the code joins the first
three tokens "a", "b", "\t", strips the result to "a b" and title-cases it to
"A B", while the claim's algorithm (no re-strip of the joined candidate)
yields "A B \t". -/
theorem C4_counterexample :
    nameOf (pyStrip "a b \t c".toList) ≠ specC4Name "a b \t c".toList ∧
    nameOf (pyStrip "a b \t c".toList) = "A B".toList ∧
    specC4Name "a b \t c".toList = "A B \t".toList := by
  decide

/-- C4 (amended): for every prompt, hero.title is the name followed by
": launch faster with clarity", where the name is computed by replacing
newlines with spaces in the trimmed prompt, splitting on single spaces,
dropping empty tokens, joining the first 3 tokens with a single space,
stripping surrounding whitespace from the joined candidate, and title-casing
it when non-empty; an empty or whitespace-only prompt yields "Your Product";
"  rocket ship builder extra words" yields "Rocket Ship Builder". -/
theorem C4_name_extraction (p : List Char) :
    (generate p).data.hero.title =
      specC4NameAmended p ++ ": launch faster with clarity".toList ∧
    (generate "  rocket ship builder extra words".toList).data.hero.title =
      "Rocket Ship Builder: launch faster with clarity".toList ∧
    (generate "".toList).data.hero.title =
      "Your Product: launch faster with clarity".toList ∧
    (generate "   ".toList).data.hero.title =
      "Your Product: launch faster with clarity".toList := by
  refine ⟨?_, by decide, by decide, by decide⟩
  rw [generate_title]
  rfl

/-- C5: feature fallback: when no feature keyword set matches (e.g.
"hello world"), features.items is exactly the fixed 3-item default list;
when at least one set matches, features.items consists exactly of the fixed
feature strings of the matching sets, in evaluation order, with at most 6
elements. -/
theorem C5_feature_fallback (p : List Char) :
    (generate p).data.features.items =
      (if (featureSel (containsAny (promptLower p) aiKws)
            (containsAny (promptLower p) analyticsKws)
            (containsAny (promptLower p) teamKws)
            (containsAny (promptLower p) mobileKws)
            (containsAny (promptLower p) secureKws)
            (containsAny (promptLower p) apiKws)).isEmpty
       then defaultFeats
       else featureSel (containsAny (promptLower p) aiKws)
            (containsAny (promptLower p) analyticsKws)
            (containsAny (promptLower p) teamKws)
            (containsAny (promptLower p) mobileKws)
            (containsAny (promptLower p) secureKws)
            (containsAny (promptLower p) apiKws)) ∧
    (generate p).data.features.items.length ≤ 6 ∧
    (generate "hello world".toList).data.features.items = defaultFeats := by
  refine ⟨?_, ?_, by decide⟩
  · rw [generate_items]
    exact featureBank_eq_sel _
  · rw [generate_items, featureBank_eq_sel]
    split
    · decide
    · exact featureSel_length_le _ _ _ _ _ _

/-- C6: subtitle construction: when the subtitle-tag list is non-empty,
hero.subtitle is the unique tags (first occurrence preserved) joined by ", "
followed by " platform to help you move faster", otherwise the fixed fallback
sentence; "AI dashboard for analytics" yields
"AI-powered, analytics platform to help you move faster". -/
theorem C6_subtitle_construction (p : List Char) :
    (generate p).data.hero.subtitle =
      (if (subtitleBits (promptLower p)).isEmpty
       then "A minimal landing that explains your value clearly.".toList
       else List.intercalate ", ".toList
              (dedupKeepFirst (subtitleBits (promptLower p))) ++
            " platform to help you move faster".toList) ∧
    (generate "AI dashboard for analytics".toList).data.hero.subtitle =
      "AI-powered, analytics platform to help you move faster".toList := by
  exact ⟨rfl, by decide⟩

/-- C7: the `/test` handler is a total function of the probe outcome: the
response always carries at most the first 10 collection names, and every
exception message is truncated to at most 50 characters inside a descriptive
status string; import failure and an uninitialized module map to their fixed
status strings. -/
theorem C7_test_endpoint (probe : DbProbe) (urlSet nameSet hasName : Bool)
    (dbName : List Char) (cols : List (List Char)) (e1 e2 : List Char) :
    (test_database probe urlSet nameSet).collections.length ≤ 10 ∧
    (test_database (.connected hasName dbName (.ok cols))
        urlSet nameSet).collections = cols.take 10 ∧
    (test_database (.connected hasName dbName (.error e1))
        urlSet nameSet).database =
      "⚠️  Connected but Error: ".toList ++ e1.take 50 ∧
    (e1.take 50).length ≤ 50 ∧
    (test_database (.otherError e2) urlSet nameSet).database =
      "❌ Error: ".toList ++ e2.take 50 ∧
    (e2.take 50).length ≤ 50 ∧
    (test_database .importError urlSet nameSet).database =
      "❌ Database module not found (run enable-database first)".toList ∧
    (test_database .notInitialized urlSet nameSet).database =
      "⚠️  Available but not initialized".toList := by
  refine ⟨?_, rfl, rfl, ?_, rfl, ?_, rfl, rfl⟩
  · cases probe with
    | importError => simp [test_database]
    | notInitialized => simp [test_database]
    | connected hN dN lr =>
      cases lr with
      | ok cs =>
        simp only [test_database, List.length_take]
        exact min_le_left _ _
      | error e => simp [test_database]
    | otherError m => simp [test_database]
  · rw [List.length_take]
    exact min_le_left _ _
  · rw [List.length_take]
    exact min_le_left _ _

/-- C8: whitespace-strip invariance: the generator's entire output on a
prompt equals its output on the prompt with leading and trailing whitespace
removed, because the input is stripped before any rule is evaluated. -/
theorem C8_strip_invariance (p : List Char) :
    generate p = generate (pyStrip p) := by
  unfold generate
  rw [pyStrip_idem]

/-- C9: case noninterference except for the name: two prompts equal after
lowercasing produce the same themeId, the same features.items and the same
hero.subtitle, since all keyword matching reads only the lowercased prompt. -/
theorem C9_case_noninterference (p1 p2 : List Char)
    (h : p1.map pyToLower = p2.map pyToLower) :
    (generate p1).themeId = (generate p2).themeId ∧
    (generate p1).data.features.items = (generate p2).data.features.items ∧
    (generate p1).data.hero.subtitle = (generate p2).data.hero.subtitle := by
  have hl : promptLower p1 = promptLower p2 := by
    rw [promptLower_eq, promptLower_eq, h]
  rw [generate_themeId, generate_themeId, generate_items, generate_items,
    generate_subtitle, generate_subtitle, hl]
  exact ⟨rfl, rfl, rfl⟩

/-- C9 witness: the prompts "AI Bank" and "ai bank" agree after lowercasing
and get identical themeId, features and subtitle. -/
theorem C9_case_noninterference_witness :
    "AI Bank".toList.map pyToLower = "ai bank".toList.map pyToLower ∧
    ((generate "AI Bank".toList).themeId =
       (generate "ai bank".toList).themeId ∧
     (generate "AI Bank".toList).data.features.items =
       (generate "ai bank".toList).data.features.items ∧
     (generate "AI Bank".toList).data.hero.subtitle =
       (generate "ai bank".toList).data.hero.subtitle) :=
  ⟨by decide, C9_case_noninterference _ _ (by decide)⟩

/-- C10: bounded subtitle range: the subtitle-tag list is always a
duplicate-free subsequence of ["AI-powered", "analytics", "collaboration"] in
that order, so hero.subtitle is one of exactly 8 fixed strings. -/
theorem C10_subtitle_range (p : List Char) :
    List.Sublist (subtitleBits (promptLower p))
      ["AI-powered".toList, "analytics".toList, "collaboration".toList] ∧
    (subtitleBits (promptLower p)).Nodup ∧
    (generate p).data.hero.subtitle ∈
      ["A minimal landing that explains your value clearly.".toList,
       "AI-powered platform to help you move faster".toList,
       "analytics platform to help you move faster".toList,
       "collaboration platform to help you move faster".toList,
       "AI-powered, analytics platform to help you move faster".toList,
       "AI-powered, collaboration platform to help you move faster".toList,
       "analytics, collaboration platform to help you move faster".toList,
       "AI-powered, analytics, collaboration platform to help you move faster".toList] := by
  rw [generate_subtitle]
  unfold subtitleOf subtitleBits
  cases h1 : containsAny (promptLower p) aiKws <;>
    cases h2 : containsAny (promptLower p) analyticsKws <;>
    cases h3 : containsAny (promptLower p) teamKws <;>
    exact ⟨by decide, by decide, by decide⟩
